import Mathlib

/-!
Verification of the adaptive grid layout calculator and the cell/focus-slide
text rendering of `src/main.py` (NihonScriptGuide).

The geometry computed by `create_table_for_syllabary` (lines 137-213 of
`src/main.py`) is embedded as a pure function over ℚ (Python floats are
modelled as exact rationals).  `layout_core` is the body of lines 157-197
with the module constants `SLIDE_WIDTH_INCHES` / `SLIDE_HEIGHT_INCHES` and
the hard-coded margins (1.0, 1.5) abstracted as parameters, matching the
spec's `compute_layout` contract; `create_table_for_syllabary_layout`
instantiates them to the source's hard-coded values, so it is exactly the
source computation.
-/

/-- Hard-coded slide width in inches (`SLIDE_WIDTH_INCHES = 13.333`). -/
def SLIDE_WIDTH_INCHES : ℚ := 13333 / 1000

/-- Hard-coded slide height in inches (`SLIDE_HEIGHT_INCHES = 7.5`). -/
def SLIDE_HEIGHT_INCHES : ℚ := 75 / 10

/-- The geometry produced by one call of the layout routine: the (possibly
shrunk) cell sizes, the grid's total extent and position, and the title
textbox geometry (lines 164-206 of `src/main.py`). -/
structure LayoutResult where
  rows : ℕ
  cols : ℕ
  colWidth : ℚ
  rowHeight : ℚ
  totalWidth : ℚ
  totalHeight : ℚ
  gridTop : ℚ
  gridLeft : ℚ
  titleLeft : ℚ
  titleTop : ℚ
  titleWidth : ℚ
  titleHeight : ℚ
  deriving Repr, DecidableEq

/-- Lines 157-197 of `src/main.py` (`create_table_for_syllabary`), with the
slide dimensions and the margins as parameters.  The title textbox is created
at `(left, top)` with width `col_width * cols` (lines 165-170) BEFORE any
scaling; then each axis is shrunk independently when its nominal extent
exceeds the available one (lines 183-197). -/
def layout_core (rows cols : ℕ) (col_width row_height top left
    slide_width_in slide_height_in margin_w margin_h : ℚ) : LayoutResult :=
  let title_width := col_width * (cols : ℚ)
  let table_top := top + 7/10
  let table_left := left
  let table_width := col_width * (cols : ℚ)
  let table_height := row_height * (rows : ℚ)
  let available_w := slide_width_in - margin_w
  let wres :=
    if table_width > available_w then
      let scale_factor := available_w / table_width
      let cw := col_width * scale_factor
      (cw, cw * (cols : ℚ))
    else
      (col_width, table_width)
  let available_h := slide_height_in - margin_h
  let hres :=
    if table_height > available_h then
      let scale_factor_h := available_h / table_height
      let rh := row_height * scale_factor_h
      (rh, rh * (rows : ℚ))
    else
      (row_height, table_height)
  { rows := rows
    cols := cols
    colWidth := wres.1
    rowHeight := hres.1
    totalWidth := wres.2
    totalHeight := hres.2
    gridTop := table_top
    gridLeft := table_left
    titleLeft := left
    titleTop := top
    titleWidth := title_width
    titleHeight := 1/2 }

/-- Line 162 of `src/main.py`:
`cols = max(len(r) for r in table_data) if rows > 0 else 0`
(for a non-empty list of natural numbers, Python's `max` agrees with the
fold of `max` from `0`). -/
def colsOf (table_data : List (List String)) : ℕ :=
  if table_data.length > 0 then (table_data.map List.length).foldl max 0 else 0

/-- The geometry side of `create_table_for_syllabary` with the source's
defaults for the remaining arguments wired by each caller: slide dimensions
are the hard-coded constants and the margins are 1.0 and 1.5 (lines 158-159,
184, 192 of `src/main.py`). -/
def create_table_for_syllabary_layout (table_data : List (List String))
    (top left col_width row_height : ℚ) : LayoutResult :=
  layout_core table_data.length (colsOf table_data) col_width row_height
    top left SLIDE_WIDTH_INCHES SLIDE_HEIGHT_INCHES 1 (3/2)

/-! The romaji/Tamil mapping and the text rendering (lines 68-108, 215-241
and 365-435 of `src/main.py`). -/

/-- `ROMAJI_TAMIL_MAP` of `src/main.py` (lines 68-108) as an association
list `label ↦ (romaji, tamil)`; its keys are pairwise distinct, so the
first-match lookup below agrees with the Python dict. -/
def ROMAJI_TAMIL_MAP : List (String × String × String) := [
  ("あ", "A", "அ"), ("か", "Ka", "க"), ("さ", "Sa", "ச"), ("た", "Ta", "த"), ("な", "Na", "ந"),
  ("は", "Ha", "ஹ"), ("ま", "Ma", "ம"), ("や", "Ya", "ய"), ("ら", "Ra", "ற"), ("わ", "Wa", "வ"),
  ("い", "I", "இ"), ("き", "Ki", "கி"), ("し", "Shi", "சி"), ("ち", "Chi", "தி"), ("に", "Ni", "நி"),
  ("ひ", "Hi", "ஹி"), ("み", "Mi", "மி"), ("り", "Ri", "றி"),
  ("う", "U", "உ"), ("く", "Ku", "கு"), ("す", "Su", "சு"), ("つ", "Tsu", "து"), ("ぬ", "Nu", "நு"),
  ("ふ", "Fu", "ஹு"), ("む", "Mu", "மு"), ("ゆ", "Yu", "யு"), ("る", "Ru", "று"),
  ("え", "E", "எ"), ("け", "Ke", "கே"), ("せ", "Se", "செ"), ("て", "Te", "தே"), ("ね", "Ne", "நே"),
  ("へ", "He", "ஹே"), ("め", "Me", "மே"), ("れ", "Re", "றே"),
  ("お", "O", "ஒ"), ("こ", "Ko", "கொ"), ("そ", "So", "சொ"), ("と", "To", "தொ"), ("の", "No", "நொ"),
  ("ほ", "Ho", "ஹொ"), ("も", "Mo", "மொ"), ("よ", "Yo", "யொ"), ("ろ", "Ro", "றொ"), ("を", "Wo", "வொ"),
  ("ん", "N", "ன்"),
  ("ア", "A", "அ"), ("カ", "Ka", "க"), ("サ", "Sa", "ச"), ("タ", "Ta", "த"), ("ナ", "Na", "ந"),
  ("ハ", "Ha", "ஹ"), ("マ", "Ma", "ம"), ("ヤ", "Ya", "ய"), ("ラ", "Ra", "ற"), ("ワ", "Wa", "வ"),
  ("イ", "I", "இ"), ("キ", "Ki", "கி"), ("シ", "Shi", "சி"), ("チ", "Chi", "தி"), ("ニ", "Ni", "நி"),
  ("ヒ", "Hi", "ஹி"), ("ミ", "Mi", "மி"), ("リ", "Ri", "றி"),
  ("ウ", "U", "உ"), ("ク", "Ku", "கு"), ("ス", "Su", "சு"), ("ツ", "Tsu", "து"), ("ヌ", "Nu", "நு"),
  ("フ", "Fu", "ஹு"), ("ム", "Mu", "மு"), ("ユ", "Yu", "யு"), ("ル", "Ru", "று"),
  ("エ", "E", "எ"), ("ケ", "Ke", "கே"), ("セ", "Se", "செ"), ("テ", "Te", "தே"), ("ネ", "Ne", "நே"),
  ("ヘ", "He", "ஹே"), ("メ", "Me", "மே"), ("レ", "Re", "றே"),
  ("オ", "O", "ஒ"), ("コ", "Ko", "கொ"), ("ソ", "So", "சொ"), ("ト", "To", "தொ"), ("ノ", "No", "நொ"),
  ("ホ", "Ho", "ஹொ"), ("モ", "Mo", "மொ"), ("ヨ", "Yo", "யொ"), ("ロ", "Ro", "றொ"), ("ヲ", "Wo", "வொ"),
  ("ン", "N", "ன்"),
  ("が", "Ga", "க"), ("ぎ", "Gi", "கி"), ("ぐ", "Gu", "கு"), ("げ", "Ge", "கே"), ("ご", "Go", "கொ"),
  ("ざ", "Za", "ச"), ("じ", "Ji", "சி"), ("ず", "Zu", "சு"), ("ぜ", "Ze", "சே"), ("ぞ", "Zo", "சொ"),
  ("だ", "Da", "த"), ("ぢ", "Ji", "தி"), ("づ", "Zu", "து"), ("で", "De", "தே"), ("ど", "Do", "தொ"),
  ("ば", "Ba", "ப"), ("び", "Bi", "பி"), ("ぶ", "Bu", "பு"), ("べ", "Be", "பே"), ("ぼ", "Bo", "பொ"),
  ("ぱ", "Pa", "ப"), ("ぴ", "Pi", "பி"), ("ぷ", "Pu", "பு"), ("ぺ", "Pe", "பே"), ("ぽ", "Po", "பொ"),
  ("ガ", "Ga", "க"), ("ギ", "Gi", "கி"), ("グ", "Gu", "கு"), ("ゲ", "Ge", "கே"), ("ゴ", "Go", "கொ"),
  ("ザ", "Za", "ச"), ("ジ", "Ji", "சி"), ("ズ", "Zu", "சு"), ("ゼ", "Ze", "சே"), ("ゾ", "Zo", "சொ"),
  ("ダ", "Da", "த"), ("ヂ", "Ji", "தி"), ("ヅ", "Zu", "து"), ("デ", "De", "தே"), ("ド", "Do", "தொ"),
  ("バ", "Ba", "ப"), ("ビ", "Bi", "பி"), ("ブ", "Bu", "பு"), ("ベ", "Be", "பே"), ("ボ", "Bo", "பொ"),
  ("パ", "Pa", "ப"), ("ピ", "Pi", "பி"), ("プ", "Pu", "பு"), ("ペ", "Pe", "பே"), ("ポ", "Po", "பொ")]

/-- `ROMAJI_TAMIL_MAP.get(char, ("", ""))` of `src/main.py` (lines 223, 369,
370, 416, 417): first-match lookup, defaulting to the empty pair. -/
def romajiTamilGet (char : String) : String × String :=
  match ROMAJI_TAMIL_MAP.find? (fun p => p.1 == char) with
  | some p => p.2
  | none => ("", "")

/-- The auxiliary line of a table cell, line 237 of `src/main.py`:
`f"{romaji}  |  {tamil}"` (two spaces on each side of the pipe). -/
def cellAuxLine (char : String) : String :=
  (romajiTamilGet char).1 ++ "  |  " ++ (romajiTamilGet char).2

/-- What the cell-filling loop (lines 216-241 of `src/main.py`) puts into one
cell: an empty (falsy) label short-circuits to empty text with no paragraphs
at all; any other label gets the big character paragraph and the auxiliary
`romaji  |  tamil` paragraph. -/
inductive CellRender where
  | blank : CellRender
  | content (big aux : String) : CellRender
  deriving Repr, DecidableEq

/-- Lines 217-241 of `src/main.py` for a single cell. -/
def renderCell (char : String) : CellRender :=
  if char = "" then CellRender.blank
  else CellRender.content char (cellAuxLine char)

/-- The auxiliary line of a focus slide, lines 384 and 431 of `src/main.py`:
`f"{romaji_h} | {tamil_h}"` (one space on each side of the pipe), built from
the hiragana character's lookup. -/
def focusAuxLine (char : String) : String :=
  (romajiTamilGet char).1 ++ " | " ++ (romajiTamilGet char).2

/-- The two textboxes of each individual focus slide of one series (lines
366-388 and 413-435 of `src/main.py`): for each index `i` of the hiragana
list, the big side-by-side line `f"{h}    {k}"` and the auxiliary line from
the hiragana lookup.  (The source indexes `hira_list[i]` and `kata_list[i]`
directly; the series data always pairs lists of equal length, and `getD`
with default `""` models the in-bounds access.)  The katakana lookup
`(romaji_k, tamil_k)` computed at lines 370/417 feeds into neither text. -/
def focusSlides (hira_list kata_list : List String) : List (String × String) :=
  (List.range hira_list.length).map fun i =>
    (hira_list.getD i "" ++ "    " ++ kata_list.getD i "", focusAuxLine (hira_list.getD i ""))

/-- `GOJUON_SERIES` of `src/main.py` (lines 113-124). -/
def GOJUON_SERIES : List (String × List String × List String) := [
  ("A Series", ["あ", "い", "う", "え", "お"], ["ア", "イ", "ウ", "エ", "オ"]),
  ("Ka Series", ["か", "き", "く", "け", "こ"], ["カ", "キ", "ク", "ケ", "コ"]),
  ("Sa Series", ["さ", "し", "す", "せ", "そ"], ["サ", "シ", "ス", "セ", "ソ"]),
  ("Ta Series", ["た", "ち", "つ", "て", "と"], ["タ", "チ", "ツ", "テ", "ト"]),
  ("Na Series", ["な", "に", "ぬ", "ね", "の"], ["ナ", "ニ", "ヌ", "ネ", "ノ"]),
  ("Ha Series", ["は", "ひ", "ふ", "へ", "ほ"], ["ハ", "ヒ", "フ", "ヘ", "ホ"]),
  ("Ma Series", ["ま", "み", "む", "め", "も"], ["マ", "ミ", "ム", "メ", "モ"]),
  ("Ya Series", ["や", "ゆ", "よ"], ["ヤ", "ユ", "ヨ"]),
  ("Ra Series", ["ら", "り", "る", "れ", "ろ"], ["ラ", "リ", "ル", "レ", "ロ"]),
  ("Wa/N Series", ["わ", "を", "ん"], ["ワ", "ヲ", "ン"])]

/-- `DAKUTEN_SERIES` of `src/main.py` (lines 126-132). -/
def DAKUTEN_SERIES : List (String × List String × List String) := [
  ("Ga Series", ["が", "ぎ", "ぐ", "げ", "ご"], ["ガ", "ギ", "グ", "ゲ", "ゴ"]),
  ("Za Series", ["ざ", "じ", "ず", "ぜ", "ぞ"], ["ザ", "ジ", "ズ", "ゼ", "ゾ"]),
  ("Da Series", ["だ", "ぢ", "づ", "で", "ど"], ["ダ", "ヂ", "ヅ", "デ", "ド"]),
  ("Ba Series", ["ば", "び", "ぶ", "べ", "ぼ"], ["バ", "ビ", "ブ", "ベ", "ボ"]),
  ("Pa Series", ["ぱ", "ぴ", "ぷ", "ぺ", "ぽ"], ["パ", "ピ", "プ", "ペ", "ポ"])]

/-! Definitional projection lemmas for `layout_core`. -/

lemma layout_core_colWidth (rows cols : ℕ)
    (col_width row_height top left swi shi mw mh : ℚ) :
    (layout_core rows cols col_width row_height top left swi shi mw mh).colWidth
      = if col_width * (cols : ℚ) > swi - mw then
          col_width * ((swi - mw) / (col_width * (cols : ℚ)))
        else col_width := by
  simp only [layout_core]
  split_ifs <;> rfl

lemma layout_core_totalWidth (rows cols : ℕ)
    (col_width row_height top left swi shi mw mh : ℚ) :
    (layout_core rows cols col_width row_height top left swi shi mw mh).totalWidth
      = if col_width * (cols : ℚ) > swi - mw then
          (col_width * ((swi - mw) / (col_width * (cols : ℚ)))) * (cols : ℚ)
        else col_width * (cols : ℚ) := by
  simp only [layout_core]
  split_ifs <;> rfl

lemma layout_core_rowHeight (rows cols : ℕ)
    (col_width row_height top left swi shi mw mh : ℚ) :
    (layout_core rows cols col_width row_height top left swi shi mw mh).rowHeight
      = if row_height * (rows : ℚ) > shi - mh then
          row_height * ((shi - mh) / (row_height * (rows : ℚ)))
        else row_height := by
  simp only [layout_core]
  split_ifs <;> rfl

lemma layout_core_totalHeight (rows cols : ℕ)
    (col_width row_height top left swi shi mw mh : ℚ) :
    (layout_core rows cols col_width row_height top left swi shi mw mh).totalHeight
      = if row_height * (rows : ℚ) > shi - mh then
          (row_height * ((shi - mh) / (row_height * (rows : ℚ)))) * (rows : ℚ)
        else row_height * (rows : ℚ) := by
  simp only [layout_core]
  split_ifs <;> rfl

lemma layout_core_gridTop (rows cols : ℕ)
    (col_width row_height top left swi shi mw mh : ℚ) :
    (layout_core rows cols col_width row_height top left swi shi mw mh).gridTop
      = top + 7/10 := by
  simp only [layout_core]

lemma layout_core_gridLeft (rows cols : ℕ)
    (col_width row_height top left swi shi mw mh : ℚ) :
    (layout_core rows cols col_width row_height top left swi shi mw mh).gridLeft
      = left := by
  simp only [layout_core]

lemma layout_core_titleWidth (rows cols : ℕ)
    (col_width row_height top left swi shi mw mh : ℚ) :
    (layout_core rows cols col_width row_height top left swi shi mw mh).titleWidth
      = col_width * (cols : ℚ) := by
  simp only [layout_core]

/-- When the nominal extent overflows, the scaled extent equals the available
extent exactly (the closed-form scale factor cancels). -/
lemma scaled_extent_eq (size : ℚ) (n : ℚ) (avail : ℚ)
    (havail : 0 < avail) (hover : avail < size * n) :
    (size * (avail / (size * n))) * n = avail := by
  have hne : size * n ≠ 0 := ne_of_gt (lt_trans havail hover)
  field_simp
  ring

/-- Claim C1: for every call of the layout routine with positive canvas
dimensions exceeding the margins, the returned total width is at most the
available width (canvas width minus width margin) and the returned total
height is at most the available height: the grid never exceeds the canvas
in either dimension. -/
theorem c1_grid_never_exceeds_canvas (rows cols : ℕ)
    (col_width row_height top left swi shi mw mh : ℚ)
    (hswi : 0 < swi) (hshi : 0 < shi) (hmw : mw < swi) (hmh : mh < shi) :
    (layout_core rows cols col_width row_height top left swi shi mw mh).totalWidth
      ≤ swi - mw ∧
    (layout_core rows cols col_width row_height top left swi shi mw mh).totalHeight
      ≤ shi - mh := by
  constructor
  · rw [layout_core_totalWidth]
    split_ifs with h
    · rw [scaled_extent_eq _ _ _ (by linarith) h]
    · exact le_of_not_lt h
  · rw [layout_core_totalHeight]
    split_ifs with h
    · rw [scaled_extent_eq _ _ _ (by linarith) h]
    · exact le_of_not_lt h

theorem c1_grid_never_exceeds_canvas_witness :
    (0 : ℚ) < 13333/1000 ∧ (0 : ℚ) < 75/10 ∧ (1 : ℚ) < 13333/1000 ∧
      (3/2 : ℚ) < 75/10 ∧
    ((layout_core 5 10 (3/2) (6/5) (1/2) (1/2)
        (13333/1000) (75/10) 1 (3/2)).totalWidth ≤ 13333/1000 - 1 ∧
     (layout_core 5 10 (3/2) (6/5) (1/2) (1/2)
        (13333/1000) (75/10) 1 (3/2)).totalHeight ≤ 75/10 - 3/2) :=
  ⟨by norm_num, by norm_num, by norm_num, by norm_num,
   c1_grid_never_exceeds_canvas 5 10 (3/2) (6/5) (1/2) (1/2)
     (13333/1000) (75/10) 1 (3/2)
     (by norm_num) (by norm_num) (by norm_num) (by norm_num)⟩

/-- Overflow on the width axis yields a total width of exactly the available
width (shared by the overflow claims). -/
lemma overflow_totalWidth (rows cols : ℕ)
    (col_width row_height top left swi shi mw mh : ℚ)
    (hmw : mw < swi) (hover : col_width * (cols : ℚ) > swi - mw) :
    (layout_core rows cols col_width row_height top left swi shi mw mh).totalWidth
      = swi - mw := by
  rw [layout_core_totalWidth, if_pos hover]
  exact scaled_extent_eq _ _ _ (by linarith) hover

/-- Claim C2: whenever the nominal width `col_width * cols` exceeds the
available width, the returned total width equals the available width exactly
and the returned column width equals
`col_width * (available_width / nominal_width)`. -/
theorem c2_overflow_width_scaled (rows cols : ℕ)
    (col_width row_height top left swi shi mw mh : ℚ)
    (hmw : mw < swi) (hover : col_width * (cols : ℚ) > swi - mw) :
    (layout_core rows cols col_width row_height top left swi shi mw mh).totalWidth
      = swi - mw ∧
    (layout_core rows cols col_width row_height top left swi shi mw mh).colWidth
      = col_width * ((swi - mw) / (col_width * (cols : ℚ))) := by
  refine ⟨overflow_totalWidth rows cols col_width row_height top left swi shi mw mh
    hmw hover, ?_⟩
  rw [layout_core_colWidth, if_pos hover]

theorem c2_overflow_width_scaled_witness :
    (layout_core 5 10 (3/2) (6/5) (1/2) (1/2)
        (13333/1000) (75/10) 1 (3/2)).totalWidth = 12333/1000 ∧
    (layout_core 5 10 (3/2) (6/5) (1/2) (1/2)
        (13333/1000) (75/10) 1 (3/2)).colWidth = 12333/10000 := by
  have h := c2_overflow_width_scaled 5 10 (3/2) (6/5) (1/2) (1/2)
    (13333/1000) (75/10) 1 (3/2) (by norm_num) (by push_cast; norm_num)
  refine ⟨?_, ?_⟩
  · rw [h.1]; norm_num
  · rw [h.2]; push_cast; norm_num

/-- Claim C3: whenever `col_width * cols ≤ canvas_width - width_margin`, the
returned column width equals the input column width and the total width is
the nominal width (no shrink is applied). -/
theorem c3_no_unnecessary_shrink (rows cols : ℕ)
    (col_width row_height top left swi shi mw mh : ℚ)
    (hfit : col_width * (cols : ℚ) ≤ swi - mw) :
    (layout_core rows cols col_width row_height top left swi shi mw mh).colWidth
      = col_width ∧
    (layout_core rows cols col_width row_height top left swi shi mw mh).totalWidth
      = col_width * (cols : ℚ) := by
  constructor
  · rw [layout_core_colWidth, if_neg (not_lt.mpr hfit)]
  · rw [layout_core_totalWidth, if_neg (not_lt.mpr hfit)]

theorem c3_no_unnecessary_shrink_witness :
    (layout_core 5 10 (11/10) 1 (1/2) (1/2)
        (13333/1000) (75/10) 1 (3/2)).colWidth = 11/10 ∧
    (layout_core 5 10 (11/10) 1 (1/2) (1/2)
        (13333/1000) (75/10) 1 (3/2)).totalWidth = 11 := by
  have h := c3_no_unnecessary_shrink 5 10 (11/10) 1 (1/2) (1/2)
    (13333/1000) (75/10) 1 (3/2) (by push_cast; norm_num)
  refine ⟨h.1, ?_⟩
  rw [h.2]; push_cast; norm_num

/-- Claim C4: the two axes are decoupled.  Varying every width-relevant
argument (`cols`, `col_width`, canvas width, width margin) leaves the
returned row height and total height unchanged, and varying every
height-relevant argument (`rows`, `row_height`, canvas height, height
margin) leaves the returned column width and total width unchanged. -/
theorem c4_axis_independence (rows rows' cols cols' : ℕ)
    (col_width col_width' row_height row_height' top left
      swi swi' shi shi' mw mw' mh mh' : ℚ) :
    ((layout_core rows cols col_width row_height top left swi shi mw mh).rowHeight
       = (layout_core rows cols' col_width' row_height top left swi' shi mw' mh).rowHeight
     ∧ (layout_core rows cols col_width row_height top left swi shi mw mh).totalHeight
       = (layout_core rows cols' col_width' row_height top left swi' shi mw' mh).totalHeight)
    ∧ ((layout_core rows cols col_width row_height top left swi shi mw mh).colWidth
       = (layout_core rows' cols col_width row_height' top left swi shi' mw mh').colWidth
     ∧ (layout_core rows cols col_width row_height top left swi shi mw mh).totalWidth
       = (layout_core rows' cols col_width row_height' top left swi shi' mw mh').totalWidth) := by
  refine ⟨⟨?_, ?_⟩, ?_, ?_⟩ <;>
    simp only [layout_core_rowHeight, layout_core_totalHeight,
      layout_core_colWidth, layout_core_totalWidth]

/-- Claim C6: the grid's top coordinate is always the supplied anchor top
plus exactly 0.7 units and its left coordinate is the anchor left unchanged,
for every input (so in particular independently of any scaling). -/
theorem c6_grid_anchor_offset (rows cols : ℕ)
    (col_width row_height top left swi shi mw mh : ℚ) :
    (layout_core rows cols col_width row_height top left swi shi mw mh).gridTop
      = top + 7/10 ∧
    (layout_core rows cols col_width row_height top left swi shi mw mh).gridLeft
      = left :=
  ⟨layout_core_gridTop rows cols col_width row_height top left swi shi mw mh,
   layout_core_gridLeft rows cols col_width row_height top left swi shi mw mh⟩

/-- Claim C9: the title textbox's width is the nominal width
`col_width * cols` computed before any scaling, so when the nominal width
exceeds the available width the title strip is strictly wider than the
scaled grid and itself exceeds the available width. -/
theorem c9_title_strip_unscaled (rows cols : ℕ)
    (col_width row_height top left swi shi mw mh : ℚ)
    (hmw : mw < swi) (hover : col_width * (cols : ℚ) > swi - mw) :
    (layout_core rows cols col_width row_height top left swi shi mw mh).titleWidth
      = col_width * (cols : ℚ) ∧
    (layout_core rows cols col_width row_height top left swi shi mw mh).titleWidth
      > (layout_core rows cols col_width row_height top left swi shi mw mh).totalWidth ∧
    (layout_core rows cols col_width row_height top left swi shi mw mh).titleWidth
      > swi - mw := by
  have ht := overflow_totalWidth rows cols col_width row_height top left swi shi mw mh
    hmw hover
  have hw := layout_core_titleWidth rows cols col_width row_height top left swi shi mw mh
  refine ⟨hw, ?_, ?_⟩
  · rw [ht, hw]; exact hover
  · rw [hw]; exact hover

theorem c9_title_strip_unscaled_witness :
    (layout_core 5 10 (3/2) 1 (1/2) (1/2)
        (13333/1000) (75/10) 1 (3/2)).titleWidth = 15 ∧
    (layout_core 5 10 (3/2) 1 (1/2) (1/2)
        (13333/1000) (75/10) 1 (3/2)).titleWidth
      > (layout_core 5 10 (3/2) 1 (1/2) (1/2)
        (13333/1000) (75/10) 1 (3/2)).totalWidth ∧
    (layout_core 5 10 (3/2) 1 (1/2) (1/2)
        (13333/1000) (75/10) 1 (3/2)).titleWidth > 12333/1000 := by
  have h := c9_title_strip_unscaled 5 10 (3/2) 1 (1/2) (1/2)
    (13333/1000) (75/10) 1 (3/2) (by norm_num) (by push_cast; norm_num)
  refine ⟨?_, h.2.1, ?_⟩
  · rw [h.1]; push_cast; norm_num
  · rw [h.1]; push_cast; norm_num

lemma layout_core_cols (rows cols : ℕ)
    (col_width row_height top left swi shi mw mh : ℚ) :
    (layout_core rows cols col_width row_height top left swi shi mw mh).cols
      = cols := by
  simp only [layout_core]

lemma layout_core_rows (rows cols : ℕ)
    (col_width row_height top left swi shi mw mh : ℚ) :
    (layout_core rows cols col_width row_height top left swi shi mw mh).rows
      = rows := by
  simp only [layout_core]

/-- Claim C5 is false as stated: a grid of two empty rows (`rows = 2`,
`cols = 0`) with the source's default cell sizes yields total width 0 but
total height `1.2 * 2 = 2.4 ≠ 0`: `cols = 0` alone does not force a zero
total height. -/
theorem c5_zero_cols_counterexample :
    (create_table_for_syllabary_layout [[], []] 1 (1/2) 1 (6/5)).cols = 0 ∧
    (create_table_for_syllabary_layout [[], []] 1 (1/2) 1 (6/5)).totalHeight = 12/5 ∧
    ¬ ((create_table_for_syllabary_layout [[], []] 1 (1/2) 1 (6/5)).totalWidth = 0 ∧
       (create_table_for_syllabary_layout [[], []] 1 (1/2) 1 (6/5)).totalHeight = 0) := by
  have h1 : create_table_for_syllabary_layout [[], []] 1 (1/2) 1 (6/5)
      = layout_core 2 0 1 (6/5) 1 (1/2)
          SLIDE_WIDTH_INCHES SLIDE_HEIGHT_INCHES 1 (3/2) := by rfl
  have hth : (layout_core 2 0 1 (6/5) 1 (1/2)
      SLIDE_WIDTH_INCHES SLIDE_HEIGHT_INCHES 1 (3/2)).totalHeight = 12/5 := by
    rw [layout_core_totalHeight,
      if_neg (by push_cast; norm_num [SLIDE_HEIGHT_INCHES])]
    push_cast
    norm_num
  refine ⟨by rw [h1, layout_core_cols], by rw [h1]; exact hth, ?_⟩
  rintro ⟨-, hzero⟩
  rw [h1, hth] at hzero
  norm_num at hzero

/-- Claim C5 (amended): when `cols = 0` the layout computation returns total
width 0 with the column width unchanged (the shrink division never runs
because the nominal width 0 does not exceed the positive available width),
the grid stays at the anchor (`gridLeft = left`, `gridTop = top + 0.7`), and
no error is possible; when additionally `rows = 0` the total height is 0 as
well with the row height unchanged.  (`rows = 0` forces `cols = 0`, so this
covers both degenerate cases; `cols = 0` with `rows > 0` keeps its non-zero
nominal height, as the counterexample shows.) -/
theorem c5_degenerate_grid_amended (table_data : List (List String))
    (top left col_width row_height : ℚ)
    (hcols : colsOf table_data = 0) :
    (create_table_for_syllabary_layout table_data top left col_width row_height).totalWidth
      = 0 ∧
    (create_table_for_syllabary_layout table_data top left col_width row_height).colWidth
      = col_width ∧
    (create_table_for_syllabary_layout table_data top left col_width row_height).gridLeft
      = left ∧
    (create_table_for_syllabary_layout table_data top left col_width row_height).gridTop
      = top + 7/10 ∧
    (table_data.length = 0 →
      (create_table_for_syllabary_layout table_data top left col_width row_height).totalHeight
        = 0 ∧
      (create_table_for_syllabary_layout table_data top left col_width row_height).rowHeight
        = row_height) := by
  have h1 : create_table_for_syllabary_layout table_data top left col_width row_height
      = layout_core table_data.length (colsOf table_data) col_width row_height
          top left SLIDE_WIDTH_INCHES SLIDE_HEIGHT_INCHES 1 (3/2) := by rfl
  rw [h1, hcols]
  refine ⟨?_, ?_, ?_, ?_, ?_⟩
  · rw [layout_core_totalWidth,
      if_neg (by push_cast; norm_num [SLIDE_WIDTH_INCHES])]
    push_cast
    ring
  · rw [layout_core_colWidth,
      if_neg (by push_cast; norm_num [SLIDE_WIDTH_INCHES])]
  · exact layout_core_gridLeft _ _ _ _ _ _ _ _ _ _
  · exact layout_core_gridTop _ _ _ _ _ _ _ _ _ _
  · intro hrows
    rw [hrows]
    constructor
    · rw [layout_core_totalHeight,
        if_neg (by push_cast; norm_num [SLIDE_HEIGHT_INCHES])]
      push_cast
      ring
    · rw [layout_core_rowHeight,
        if_neg (by push_cast; norm_num [SLIDE_HEIGHT_INCHES])]

theorem c5_degenerate_grid_amended_witness :
    colsOf ([] : List (List String)) = 0 ∧
    ((create_table_for_syllabary_layout [] 1 (1/2) 1 (6/5)).totalWidth = 0 ∧
     (create_table_for_syllabary_layout [] 1 (1/2) 1 (6/5)).colWidth = 1 ∧
     (create_table_for_syllabary_layout [] 1 (1/2) 1 (6/5)).gridLeft = 1/2 ∧
     (create_table_for_syllabary_layout [] 1 (1/2) 1 (6/5)).gridTop = 1 + 7/10 ∧
     (([] : List (List String)).length = 0 →
       (create_table_for_syllabary_layout [] 1 (1/2) 1 (6/5)).totalHeight = 0 ∧
       (create_table_for_syllabary_layout [] 1 (1/2) 1 (6/5)).rowHeight = 6/5)) :=
  ⟨rfl, c5_degenerate_grid_amended [] 1 (1/2) 1 (6/5) rfl⟩

/-- The auxiliary component of the `i`-th focus slide of a series is the
hiragana character's rendering, whatever the katakana list is. -/
lemma focusSlides_getD_snd (hira_list kata_list : List String) (i : ℕ)
    (hi : i < hira_list.length) :
    ((focusSlides hira_list kata_list).getD i ("", "")).2
      = focusAuxLine (hira_list.getD i "") := by
  have hlen : i < (focusSlides hira_list kata_list).length := by
    simpa [focusSlides] using hi
  rw [List.getD_eq_getElem _ _ hlen]
  simp [focusSlides]

/-- Claim C8: on every dual-script focus slide (every series of
`GOJUON_SERIES` and `DAKUTEN_SERIES`, every character index), the rendered
auxiliary line is exactly the primary (hiragana) character's
`romaji | tamil` lookup, and it is unchanged under any replacement of the
secondary (katakana) list: the katakana pair looked up at lines 370/417 of
`src/main.py` is never rendered. -/
theorem c8_secondary_lookup_never_rendered
    (s : String × List String × List String)
    (hs : s ∈ GOJUON_SERIES ++ DAKUTEN_SERIES) (i : ℕ) (hi : i < s.2.1.length) :
    ((focusSlides s.2.1 s.2.2).getD i ("", "")).2
        = (romajiTamilGet (s.2.1.getD i "")).1 ++ " | "
            ++ (romajiTamilGet (s.2.1.getD i "")).2
      ∧ ∀ kata_other : List String,
        ((focusSlides s.2.1 kata_other).getD i ("", "")).2
          = ((focusSlides s.2.1 s.2.2).getD i ("", "")).2 := by
  constructor
  · rw [focusSlides_getD_snd _ _ _ hi]
    rfl
  · intro kata_other
    rw [focusSlides_getD_snd _ _ _ hi, focusSlides_getD_snd _ _ _ hi]

theorem c8_secondary_lookup_never_rendered_witness :
    ((focusSlides ["あ", "い", "う", "え", "お"]
        ["ア", "イ", "ウ", "エ", "オ"]).getD 0 ("", "")).2
        = (romajiTamilGet (["あ", "い", "う", "え", "お"].getD 0 "")).1 ++ " | "
            ++ (romajiTamilGet (["あ", "い", "う", "え", "お"].getD 0 "")).2
      ∧ ∀ kata_other : List String,
        ((focusSlides ["あ", "い", "う", "え", "お"] kata_other).getD 0 ("", "")).2
          = ((focusSlides ["あ", "い", "う", "え", "お"]
              ["ア", "イ", "ウ", "エ", "オ"]).getD 0 ("", "")).2 :=
  c8_secondary_lookup_never_rendered
    ("A Series", ["あ", "い", "う", "え", "お"], ["ア", "イ", "ウ", "エ", "オ"])
    (by decide) 0 (by decide)

/-- Claim C7 is false as stated for table cells: the label `x` is absent from
the mapping and resolves to `("", "")`, but the auxiliary line line 237 of
`src/main.py` renders for such a cell is `"  |  "` (TWO spaces on each side
of the pipe), not `" | "`. -/
theorem c7_cell_pipe_spacing_counterexample :
    romajiTamilGet "x" = ("", "") ∧
    cellAuxLine "x" = "  |  " ∧
    ¬ cellAuxLine "x" = " | " := by
  refine ⟨rfl, rfl, ?_⟩
  decide

/-- Claim C7 (amended): a non-empty label absent from the mapping resolves to
the empty pair `("", "")` without raising; the auxiliary line rendered for
such a TABLE CELL is `"  |  "` (a pipe with two spaces on each side, empty
text on both sides), while the FOCUS-SLIDE auxiliary line is `" | "` (one
space on each side). -/
theorem c7_missing_label_blank_aux (char : String) (hne : char ≠ "")
    (hmiss : ROMAJI_TAMIL_MAP.find? (fun p => p.1 == char) = none) :
    romajiTamilGet char = ("", "") ∧
    cellAuxLine char = "  |  " ∧
    focusAuxLine char = " | " := by
  have h : romajiTamilGet char = ("", "") := by
    unfold romajiTamilGet
    rw [hmiss]
  refine ⟨h, ?_, ?_⟩
  · unfold cellAuxLine
    rw [h]
    rfl
  · unfold focusAuxLine
    rw [h]
    rfl

theorem c7_missing_label_blank_aux_witness :
    "x" ≠ "" ∧
    ROMAJI_TAMIL_MAP.find? (fun p => p.1 == "x") = none ∧
    (romajiTamilGet "x" = ("", "") ∧
     cellAuxLine "x" = "  |  " ∧
     focusAuxLine "x" = " | ") :=
  ⟨by decide, rfl, c7_missing_label_blank_aux "x" (by decide) rfl⟩

/-- Claim C10: a cell whose label is the empty string is rendered blank, with
empty text and no auxiliary line at all (no pipe separator), while a cell
whose non-empty label is missing from the mapping still renders the big
character together with a separator line with blank sides; the two renderings
differ. -/
theorem c10_empty_label_vs_missing_label (char : String) (hne : char ≠ "")
    (hmiss : ROMAJI_TAMIL_MAP.find? (fun p => p.1 == char) = none) :
    renderCell "" = CellRender.blank ∧
    renderCell char = CellRender.content char "  |  " ∧
    renderCell char ≠ renderCell "" := by
  have h : romajiTamilGet char = ("", "") := by
    unfold romajiTamilGet
    rw [hmiss]
  have hc : renderCell char = CellRender.content char "  |  " := by
    unfold renderCell
    rw [if_neg hne]
    unfold cellAuxLine
    rw [h]
    rfl
  have hb : renderCell "" = CellRender.blank := rfl
  refine ⟨hb, hc, ?_⟩
  rw [hc, hb]
  intro hcontra
  exact CellRender.noConfusion hcontra

theorem c10_empty_label_vs_missing_label_witness :
    "x" ≠ "" ∧
    ROMAJI_TAMIL_MAP.find? (fun p => p.1 == "x") = none ∧
    (renderCell "" = CellRender.blank ∧
     renderCell "x" = CellRender.content "x" "  |  " ∧
     renderCell "x" ≠ renderCell "") :=
  ⟨by decide, rfl, c10_empty_label_vs_missing_label "x" (by decide) rfl⟩
